import Mathlib

/-!
Shallow embedding of the KImageFormats image-codec handlers
(src/imageformats/jxl.cpp and src/imageformats/pfm.cpp) and proofs about
them.  Pure computations of the C++ source are translated into Lean
functions; the stateful handler is explicit state passing over a handler
record; the external libjxl decoder/encoder is an explicit environment of
call outcomes (each library call that can fail is a boolean or Option
field of the environment).  Double arithmetic of the source is modelled
exactly over the rationals.
-/

/-! ## Platform caps (jxl.cpp lines 41-53, 64-bit host: code stream level 5) -/

def MAX_IMAGE_WIDTH : Nat := 262144

def MAX_IMAGE_HEIGHT : Nat := 262144

def MAX_IMAGE_PIXELS : Nat := 268435456

/-! ## Handler state (jxl_p.h / jxl.cpp) -/

/-- The parse-state enum of QJpegXLHandler. -/
inductive ParseState
  | NotParsed
  | BasicInfoParsed
  | Success
  | Finished
  | Error
deriving DecidableEq, Repr

/-- A JXL animation frame header, as consumed by countALLFrames:
only the duration and the is_last flag are read (jxl.cpp lines 355-391). -/
structure FrameHeader where
  duration : Nat
  is_last : Bool
deriving DecidableEq, Repr

/-- The handler fields that the read/seek state machine touches
(QJpegXLHandler members m_parseState, m_currentimage_index,
m_previousimage_index, m_framedelays, m_current_image, m_next_image_delay).
The decoded image type is abstract. -/
structure Handler (Img : Type) where
  parseState : ParseState
  currentIndex : Int
  previousIndex : Int
  frameDelays : List Int
  currentImage : Img
  nextImageDelay : Int

/-- Outcomes of the external libjxl calls performed while decoding one
frame: decodeImage is the image produced by the
SetImageOutBuffer/ProcessInput/convert sequence of decode_one_frame (none
when any of those library calls fails), rewindOk is whether the library
calls inside rewind() succeed. -/
structure DecodeEnv (Img : Type) where
  decodeImage : Option Img
  rewindOk : Bool

/-! ## Frame counting (QJpegXLHandler::countALLFrames, jxl.cpp lines 241-481) -/

/-- The per-frame delay computed at jxl.cpp lines 381-385:
delay = (int)(0.5 + 1000.0 * duration * tps_denominator / tps_numerator)
when both tps fields are positive, else 0.  The double expression is
modelled exactly over the rationals; the C cast truncates toward zero and
the operand is nonnegative, hence the floor. -/
def frameDelay (tpsNum tpsDen duration : Nat) : Int :=
  if 0 < tpsDen ∧ 0 < tpsNum then
    Int.floor ((1 : ℚ) / 2 + 1000 * (duration : ℚ) * (tpsDen : ℚ) / (tpsNum : ℚ))
  else 0

/-- The delay formula exactly as the spec words it: round(1000 ×
duration × tps_denominator / tps_numerator) milliseconds, and 0 when
tps_numerator == 0.  Used only to compare against frameDelay. -/
def specFrameDelay (tpsNum tpsDen duration : Nat) : Int :=
  if tpsNum = 0 then 0
  else round (1000 * (duration : ℚ) * (tpsDen : ℚ) / (tpsNum : ℚ))

/-- The delays appended by the frame-walk loop (jxl.cpp lines 358-392):
one delay per frame header, stopping after the first header whose is_last
flag is set (or when the decoder reports success, i.e. the list ends). -/
def countDelays (tpsNum tpsDen : Nat) : List FrameHeader → List Int
  | [] => []
  | f :: rest =>
    frameDelay tpsNum tpsDen f.duration ::
      (if f.is_last then [] else countDelays tpsNum tpsDen rest)

/-- The frame headers the walk visits, per the spec: each header until
one marks is_last (inclusive).  Used only to compare against
countDelays. -/
def specFramesWalked : List FrameHeader → List FrameHeader
  | [] => []
  | f :: rest => f :: (if f.is_last then [] else specFramesWalked rest)

/-- Outcomes of the external library calls made by countALLFrames:
colorEncodingEvent is whether the first ProcessInput yields
JXL_DEC_COLOR_ENCODING (line 247); framesOk is whether the frame walk
delivers the frame headers without a library error (lines 358-379);
cmykOk is whether the extra-channel scan succeeds (lines 409-466);
boxesOk is whether decodeContainer succeeds (line 469); rewindOk is
whether rewind succeeds (line 474). -/
structure CountEnv where
  colorEncodingEvent : Bool
  framesOk : Bool
  cmykOk : Bool
  boxesOk : Bool
  rewindOk : Bool
deriving DecidableEq, Repr

/-- QJpegXLHandler::countALLFrames (jxl.cpp lines 241-481) restricted to
the fields it returns for the animation bookkeeping: the new
have_animation flag and m_framedelays.  Returns none exactly when the
function returns false latching ParseJpegXLError.  The animated branch
appends countDelays and errors on an empty result (lines 394-398), then
downgrades have_animation when a single frame was found (lines 400-403);
the static branch sets m_framedelays to the single entry 0 (lines
404-407). -/
def countALLFrames (env : CountEnv) (haveAnim : Bool) (tpsNum tpsDen : Nat)
    (frames : List FrameHeader) : Option (Bool × List Int) :=
  if env.colorEncodingEvent = false then none
  else
    match (if haveAnim then
             if env.framesOk = false then none
             else
               (fun delays =>
                 if delays.isEmpty then none
                 else some ((if delays.length = 1 then false else true), delays))
               (countDelays tpsNum tpsDen frames)
           else some (false, ([0] : List Int))) with
    | none => none
    | some r =>
      if env.cmykOk = false then none
      else if env.boxesOk = false then none
      else if env.rewindOk = false then none
      else some r

/-! ## Lazy parse pipeline and the frame cursor (jxl.cpp lines 117-144, 483-839) -/

/-- Combined behaviour of ensureParsed followed by the counted-state check
of ensureALLCounted (jxl.cpp lines 117-144): an Error state fails, the
already-counted states Success/Finished succeed without work, and in the
remaining states (NotParsed, BasicInfoParsed) the lazy
ensureDecoder/countALLFrames pipeline runs; that pipeline is abstracted
as a state transformer argument. -/
def ensureALLCounted {Img : Type} (pipeline : Handler Img → Bool × Handler Img)
    (h : Handler Img) : Bool × Handler Img :=
  if h.parseState = ParseState.Error then (false, h)
  else if h.parseState = ParseState.Success ∨ h.parseState = ParseState.Finished then (true, h)
  else pipeline h

/-- QJpegXLHandler::decode_one_frame (jxl.cpp lines 483-820).  The pixel
work (buffer allocation, ProcessInput to FULL_IMAGE, CMYK inversion,
format conversion, metadata attachment) is the environment's decodeImage;
every failure there latches ParseJpegXLError (none case).  On success the
cursor bookkeeping of lines 798-817 runs: record the delay and the
previous index, then advance, rewinding and latching Finished on
wrap-around, Success otherwise; a static image latches Finished. -/
def decode_one_frame {Img : Type} (env : DecodeEnv Img) (h : Handler Img) :
    Bool × Handler Img :=
  match env.decodeImage with
  | none => (false, { h with parseState := ParseState.Error })
  | some img =>
    let h1 := { h with currentImage := img,
                       nextImageDelay := h.frameDelays.getD h.currentIndex.toNat 0,
                       previousIndex := h.currentIndex }
    if 1 < h1.frameDelays.length then
      if (h1.frameDelays.length : Int) ≤ h1.currentIndex + 1 then
        if env.rewindOk then
          (true, { h1 with currentIndex := 0, parseState := ParseState.Finished })
        else
          (false, { h1 with currentIndex := 0, parseState := ParseState.Error })
      else
        (true, { h1 with currentIndex := h1.currentIndex + 1,
                         parseState := ParseState.Success })
    else
      (true, { h1 with parseState := ParseState.Finished })

/-- QJpegXLHandler::jumpToNextImage (jxl.cpp lines 1751-1771): after
ensureALLCounted, a multi-frame file advances the cursor, rewinding on
wrap-around (rewind zeroes the cursor first and latches Error when a
library call fails, lines 1833-1892) and skipping one frame otherwise;
finally the state is set to Success. -/
def jumpToNextImage {Img : Type} (pipeline : Handler Img → Bool × Handler Img)
    (rewindOk : Bool) (h : Handler Img) : Bool × Handler Img :=
  match ensureALLCounted pipeline h with
  | (false, h1) => (false, h1)
  | (true, h1) =>
    if 1 < h1.frameDelays.length then
      if (h1.frameDelays.length : Int) ≤ h1.currentIndex + 1 then
        if rewindOk then
          (true, { h1 with currentIndex := 0, parseState := ParseState.Success })
        else
          (false, { h1 with currentIndex := 0, parseState := ParseState.Error })
      else
        (true, { h1 with currentIndex := h1.currentIndex + 1,
                         parseState := ParseState.Success })
    else
      (true, { h1 with parseState := ParseState.Success })

/-- QJpegXLHandler::read (jxl.cpp lines 822-839).  Result: whether read
returned true, what was written into the out-image (none when untouched),
and the handler afterwards.  When the current and previous indices agree
the cached image is stored into the out-image and jumpToNextImage decides
the return value; otherwise decode_one_frame runs. -/
def QJpegXLHandler.read {Img : Type} (pipeline : Handler Img → Bool × Handler Img)
    (env : DecodeEnv Img) (h : Handler Img) : Bool × Option Img × Handler Img :=
  match ensureALLCounted pipeline h with
  | (false, h1) => (false, none, h1)
  | (true, h1) =>
    if h1.currentIndex = h1.previousIndex then
      ((jumpToNextImage pipeline env.rewindOk h1).1, some h1.currentImage,
       (jumpToNextImage pipeline env.rewindOk h1).2)
    else
      match decode_one_frame env h1 with
      | (true, h2) => (true, some h2.currentImage, h2)
      | (false, h2) => (false, none, h2)

/-- The const member QJpegXLHandler::canRead (jxl.cpp lines 82-98) as a
function of the parse state and of the outcome of the static signature
probe on the device (probeOk): a NotParsed handler whose device fails the
probe declines; otherwise any non-Error state accepts except Finished. -/
def handlerCanRead (probeOk : Bool) (st : ParseState) : Bool :=
  if st = ParseState.NotParsed ∧ probeOk = false then false
  else if st ≠ ParseState.Error then
    if st = ParseState.Finished then false else true
  else false

/-! ## ensureDecoder (jxl.cpp lines 146-239) -/

/-- Inputs and library-call outcomes of QJpegXLHandler::ensureDecoder:
rawData is device()->readAll(); signatureOk is whether JxlSignatureCheck
returns CODESTREAM or CONTAINER; createOk is JxlDecoderCreate;
idealThreadCount is QThread::idealThreadCount(); setRunnerOk is
JxlDecoderSetParallelRunner (consulted only when idealThreadCount >= 4);
setInputOk, subscribeOk are the corresponding calls; processOk is whether
the first JxlDecoderProcessInput avoids ERROR and NEED_MORE_INPUT;
basicInfoOk is JxlDecoderGetBasicInfo; xsize, ysize are the reported
dimensions. -/
structure ParseEnv where
  rawData : List Nat
  signatureOk : Bool
  createOk : Bool
  idealThreadCount : Int
  setRunnerOk : Bool
  setInputOk : Bool
  subscribeOk : Bool
  processOk : Bool
  basicInfoOk : Bool
  xsize : Nat
  ysize : Nat
deriving DecidableEq, Repr

/-- QJpegXLHandler::ensureDecoder (jxl.cpp lines 146-239), started from
the NotParsed state: result is (return value, parse state afterwards).
An empty input returns false without latching Error (line 154); every
other failure latches ParseJpegXLError; the dimension checks of lines
225-235 reject zero dimensions and width/height above the caps.  No
pixel-count check occurs here. -/
def ensureDecoder (env : ParseEnv) : Bool × ParseState :=
  if env.rawData.isEmpty then (false, ParseState.NotParsed)
  else if env.signatureOk = false then (false, ParseState.Error)
  else if env.createOk = false then (false, ParseState.Error)
  else if 4 ≤ env.idealThreadCount ∧ env.setRunnerOk = false then (false, ParseState.Error)
  else if env.setInputOk = false then (false, ParseState.Error)
  else if env.subscribeOk = false then (false, ParseState.Error)
  else if env.processOk = false then (false, ParseState.Error)
  else if env.basicInfoOk = false then (false, ParseState.Error)
  else if env.xsize = 0 ∨ env.ysize = 0 then (false, ParseState.Error)
  else if MAX_IMAGE_WIDTH < env.xsize ∨ MAX_IMAGE_HEIGHT < env.ysize then
    (false, ParseState.Error)
  else (true, ParseState.BasicInfoParsed)

/-- The pre-checks of QJpegXLHandler::write (jxl.cpp lines 843-862):
reject an Invalid format, a zero dimension, width/height above the caps,
and a pixel count above MAX_IMAGE_PIXELS.  This is the only place the
pixel cap is enforced. -/
def writePrecheck (formatValid : Bool) (width height : Nat) : Bool :=
  if formatValid = false then false
  else if width = 0 ∨ height = 0 then false
  else if MAX_IMAGE_WIDTH < width ∨ MAX_IMAGE_HEIGHT < height then false
  else if MAX_IMAGE_PIXELS ≠ 0 ∧ MAX_IMAGE_PIXELS < width * height then false
  else true

/-! ## Container box extraction (QJpegXLHandler::extractBox, jxl.cpp lines 2013-2071) -/

/-- The grow loop of extractBox (jxl.cpp lines 2038-2059), tracking the
output buffer size: payload is the size of the decompressed box content
the library wants to deliver, buf the current buffer size.  While the
buffer is too small the decoder reports JXL_DEC_BOX_NEED_MORE_OUTPUT:
the code first rejects when the buffer already exceeds 4194304 bytes
(line 2043), then appends 16384 bytes.  On BOX_COMPLETE the unused tail
is chopped (line 2068), leaving exactly payload bytes. -/
def extractBoxLoop (payload buf : Nat) : Option Nat :=
  if buf < payload then
    if 4194304 < buf then none
    else extractBoxLoop payload (buf + 16384)
  else some payload
termination_by payload - buf
decreasing_by omega

/-- QJpegXLHandler::extractBox (jxl.cpp lines 2013-2071): the buffer
starts at the raw box size, which is rejected when it exceeds the
container length (lines 2024-2028); then the grow loop runs.  Library
failures (GetBoxSizeRaw, SetBoxBuffer, decode errors) are orthogonal to
the size logic and are not modelled. -/
def extractBox (containerSize rawBoxSize payload : Nat) : Option Nat :=
  if containerSize < rawBoxSize then none
  else extractBoxLoop payload rawBoxSize

/-! ## Options (QJpegXLHandler::setOption, jxl.cpp lines 1682-1705) and
orientation emission (QJpegXLHandler::write, jxl.cpp lines 896-913) -/

/-- The Quality branch of setOption (jxl.cpp lines 1685-1692): store the
integer, clamp values above 100 to 100, reset negative values to 90. -/
def setQuality (v : Int) : Int :=
  if 100 < v then 100
  else if v < 0 then 90
  else v

/-- The ImageTransformation branch of setOption (jxl.cpp lines
1694-1699): the statement if (auto t = value.toInt()) only enters its
body when t is nonzero, and the body stores t only when 0 < t < 8; any
other value leaves the stored transformation unchanged. -/
def setOptionTransformation (stored v : Int) : Int :=
  if v ≠ 0 then
    if 0 < v ∧ v < 8 then v else stored
  else stored

/-- The orientation emitted by write (jxl.cpp lines 898-913) from the
stored QImageIOHandler::Transformations value (None=0, Mirror=1, Flip=2,
Rotate180=3, Rotate90=4, MirrorAndRotate90=5, FlipAndRotate90=6,
Rotate270=7), as the numeric JxlOrientation code (IDENTITY=1,
FLIP_HORIZONTAL=2, ROTATE_180=3, FLIP_VERTICAL=4, TRANSPOSE=5,
ROTATE_90_CW=6, ANTI_TRANSPOSE=7, ROTATE_90_CCW=8), following the
if-else chain of the source. -/
def writeOrientation (t : Int) : Nat :=
  if t = 1 then 2
  else if t = 3 then 3
  else if t = 2 then 4
  else if t = 6 then 5
  else if t = 4 then 6
  else if t = 5 then 7
  else if t = 7 then 8
  else 1

/-! ## Signature probe (static QJpegXLHandler::canRead, jxl.cpp lines 100-115) -/

/-- A sequential input device: a byte stream and a read position.
QIODevice::peek returns up to n bytes without advancing the position. -/
structure Device where
  bytes : List Nat
  pos : Nat
deriving DecidableEq, Repr

/-- QIODevice::peek(n): the next n available bytes, without consuming. -/
def devicePeek (d : Device) (n : Nat) : List Nat :=
  (d.bytes.drop d.pos).take n

/-- The static canRead probe (jxl.cpp lines 100-115): peek 32 bytes,
decline when fewer than 12 are available, otherwise consult
JxlSignatureCheck (abstracted as the sig argument).  The device is
returned to exhibit that no bytes are consumed. -/
def canReadDevice (sig : List Nat → Bool) (d : Device) : Bool × Device :=
  if (devicePeek d 32).length < 12 then (false, d)
  else (sig (devicePeek d 32), d)

/-! ## PFM reader (PFMHandler::read, pfm.cpp lines 199-241) -/

/-- A decoded PFM pixel: (red, green, blue, alpha) single-precision
floats, modelled over the rationals. -/
abbrev PFMPixel := ℚ × ℚ × ℚ × ℚ

/-- One pixel of the inner loop (pfm.cpp lines 220-234): alpha is set to
1; a grayscale file reads one float and broadcasts it, a color file reads
three; a short stream is a data error aborting the read. -/
def readPixel (bw : Bool) (s : List ℚ) : Option (PFMPixel × List ℚ) :=
  if bw then
    match s with
    | v :: rest => some ((v, v, v, 1), rest)
    | [] => none
  else
    match s with
    | r :: g :: b :: rest => some ((r, g, b, 1), rest)
    | _ => none

/-- One scanline's worth of pixels read from the stream. -/
def readRow (bw : Bool) : Nat → List ℚ → Option (List PFMPixel × List ℚ)
  | 0, s => some ([], s)
  | w + 1, s =>
    match readPixel bw s with
    | none => none
    | some (p, s1) =>
      match readRow bw w s1 with
      | none => none
      | some (row, s2) => some (p :: row, s2)

/-- The scanline loop of PFMHandler::read (pfm.cpp lines 217-235): the
y-th row of the data stream is written into scanline y for the Photoshop
variant and into scanline h-1-y for the GIMP variant.  k counts the rows
still to read (k = h - y); img is the list of scanlines. -/
def pfmReadLoop (ps bw : Bool) (w h : Nat) :
    Nat → Nat → List (List PFMPixel) → List ℚ → Option (List (List PFMPixel))
  | 0, _, img, _ => some img
  | k + 1, y, img, s =>
    match readRow bw w s with
    | none => none
    | some (row, s1) =>
      pfmReadLoop ps bw w h k (y + 1) (img.set (if ps then y else h - 1 - y) row) s1

/-- PFMHandler::read after a valid header (ps: Photoshop variant, bw:
grayscale, w x h dimensions): the image starts as the allocated buffer
(contents irrelevant, every scanline is written) and the scanline loop
fills it from the float stream. -/
def pfmRead (ps bw : Bool) (w h : Nat) (s : List ℚ) : Option (List (List PFMPixel)) :=
  pfmReadLoop ps bw w h h 0 (List.replicate h (List.replicate w (0, 0, 0, 0))) s

/-- The y-th row of the data stream: skip y rows, then read one. -/
def streamRowsFrom (bw : Bool) (w : Nat) : Nat → List ℚ → Option (List PFMPixel × List ℚ)
  | 0, s => readRow bw w s
  | y + 1, s =>
    match readRow bw w s with
    | none => none
    | some (_, s1) => streamRowsFrom bw w y s1

/-! ## Theorems -/

/-- The source's delay expression agrees with the spec's formula for every
tps pair: when tps_denominator is zero (and tps_numerator positive) the
source returns 0 and the spec's formula rounds 0. -/
theorem frameDelay_eq_specFrameDelay (n d dur : Nat) :
    frameDelay n d dur = specFrameDelay n d dur := by
  unfold frameDelay specFrameDelay
  rcases Nat.eq_zero_or_pos n with hn | hn
  · subst hn
    simp
  · rcases Nat.eq_zero_or_pos d with hd | hd
    · subst hd
      simp [Nat.pos_iff_ne_zero.mp hn]
    · rw [if_pos ⟨hd, hn⟩, if_neg (Nat.pos_iff_ne_zero.mp hn), round_eq, add_comm]

/-- C2: for every animated JXL input, the frame-counting loop appends,
for each frame header until one marks is_last, a delay of
round(1000 × duration × tps_denominator / tps_numerator) milliseconds to
frame_delays, and appends 0 when tps_numerator == 0. -/
theorem jxl_frame_delays_spec (tpsNum tpsDen : Nat) (frames : List FrameHeader) :
    countDelays tpsNum tpsDen frames =
      (specFramesWalked frames).map (fun f => specFrameDelay tpsNum tpsDen f.duration) := by
  induction frames with
  | nil => rfl
  | cons f rest ih =>
    cases hl : f.is_last <;>
      simp [countDelays, specFramesWalked, hl, frameDelay_eq_specFrameDelay, ih]

/-- C7: for every integer v, setting the Quality option to v leaves the
stored quality in 0..100: values above 100 are clamped to 100, negative
values are reset to 90, and values in 0..100 are stored as given. -/
theorem jxl_quality_clamp (v : Int) :
    (0 ≤ setQuality v ∧ setQuality v ≤ 100) ∧
    (100 < v → setQuality v = 100) ∧
    (v < 0 → setQuality v = 90) ∧
    (0 ≤ v → v ≤ 100 → setQuality v = v) := by
  unfold setQuality
  refine ⟨⟨?_, ?_⟩, ?_, ?_, ?_⟩ <;> intros <;> split <;> (try split) <;> omega

/-- Witness for C7 at quality values 150, -7 and 55. -/
theorem jxl_quality_clamp_witness :
    setQuality 150 = 100 ∧ setQuality (-7) = 90 ∧ setQuality 55 = 55 :=
  ⟨(jxl_quality_clamp 150).2.1 (by decide),
   (jxl_quality_clamp (-7)).2.2.1 (by decide),
   (jxl_quality_clamp 55).2.2.2 (by decide) (by decide)⟩

/-- C6 counterexample: setting ImageTransformation to 0 does not store
orientation 0 — with orientation 3 stored, setting 0 leaves 3 in place,
because if (auto t = value.toInt()) skips a zero value. -/
theorem jxl_transformation_zero_cex :
    setOptionTransformation 3 0 = 3 ∧ (3 : Int) ≠ 0 := by
  decide

/-- C6 amended: the ImageTransformation setter stores v for v in 1..7 and
leaves the stored orientation unchanged for v = 0; write maps the stored
values 0..7 bijectively onto the eight JxlOrientation codes, following
the source's table (None to identity, Mirror to flip-H, Flip to flip-V,
Rotate180 to rot180, Rotate90 to rot90-CW, MirrorAndRotate90 to
anti-transpose, FlipAndRotate90 to transpose, Rotate270 to rot90-CCW). -/
theorem jxl_transformation_amended :
    (∀ stored v : Int, 1 ≤ v → v ≤ 7 → setOptionTransformation stored v = v) ∧
    (∀ stored : Int, setOptionTransformation stored 0 = stored) ∧
    (List.range 8).map (fun v => writeOrientation (v : Nat)) = [1, 2, 4, 3, 6, 7, 5, 8] ∧
    ([1, 2, 4, 3, 6, 7, 5, 8] : List Nat).Nodup := by
  refine ⟨?_, ?_, ?_, ?_⟩
  · intro s v h1 h2
    unfold setOptionTransformation
    rw [if_pos (show v ≠ 0 by omega), if_pos (show 0 < v ∧ v < 8 by omega)]
  · intro s
    rfl
  · decide
  · decide

/-- Witness for C6 amended at stored orientation 4, set values 5 and 0. -/
theorem jxl_transformation_amended_witness :
    setOptionTransformation 0 5 = 5 ∧ setOptionTransformation 4 0 = 4 :=
  ⟨jxl_transformation_amended.1 0 5 (by decide) (by decide),
   jxl_transformation_amended.2.1 4⟩

/-- C8: for every input device from which fewer than 12 bytes can be
peeked, the JXL signature probe canRead returns false without consuming
any bytes from the device, whatever the signature check would say. -/
theorem jxl_probe_short_input (sig : List Nat → Bool) (d : Device)
    (hshort : (d.bytes.drop d.pos).length < 12) :
    canReadDevice sig d = (false, d) := by
  unfold canReadDevice devicePeek
  rw [if_pos]
  rw [List.length_take]
  omega

/-- Witness for C8: a device holding only the 8 first bytes of a JXL
container signature is declined and left unread. -/
theorem jxl_probe_short_input_witness :
    canReadDevice (fun _ => true) ⟨[0, 0, 0, 12, 74, 88, 76, 32], 0⟩ =
      (false, ⟨[0, 0, 0, 12, 74, 88, 76, 32], 0⟩) :=
  jxl_probe_short_input (fun _ => true) ⟨[0, 0, 0, 12, 74, 88, 76, 32], 0⟩ (by decide)

/-- Inversion of countALLFrames: a successful count either walked an
animated file (nonempty delay list, have_animation downgraded exactly
when a single frame was found) or handled a static picture (single zero
delay). -/
theorem countALLFrames_some_inv (env : CountEnv) (haveAnim : Bool) (tpsNum tpsDen : Nat)
    (frames : List FrameHeader) (r : Bool × List Int)
    (hr : countALLFrames env haveAnim tpsNum tpsDen frames = some r) :
    (haveAnim = true ∧ countDelays tpsNum tpsDen frames ≠ [] ∧
      r = ((if (countDelays tpsNum tpsDen frames).length = 1 then false else true),
           countDelays tpsNum tpsDen frames)) ∨
    (haveAnim = false ∧ r = (false, [0])) := by
  unfold countALLFrames at hr
  split at hr
  · exact Option.noConfusion hr
  · split at hr
    · exact Option.noConfusion hr
    · rename_i r' heq
      split at hr
      · exact Option.noConfusion hr
      · split at hr
        · exact Option.noConfusion hr
        · split at hr
          · exact Option.noConfusion hr
          · injection hr with hr
            subst hr
            cases haveAnim with
            | false =>
              rw [if_neg (by simp)] at heq
              injection heq with heq
              exact Or.inr ⟨rfl, heq.symm⟩
            | true =>
              rw [if_pos rfl] at heq
              split at heq
              · exact Option.noConfusion heq
              · simp only [] at heq
                split at heq
                · exact Option.noConfusion heq
                · rename_i hne
                  injection heq with heq
                  refine Or.inl ⟨rfl, ?_, heq.symm⟩
                  simpa using hne

/-- C3 counterexample: a file marked as animation whose single frame has
duration 1 at 1 tick per second is downgraded to have_animation = false,
yet its one frame_delays entry is the computed delay 1000, not 0.  This
refutes the claim that have_animation = false always forces
frame_delays = [0]. -/
theorem jxl_animation_downgrade_cex :
    countALLFrames ⟨true, true, true, true, true⟩ true 1 1 [⟨1, true⟩] =
      some (false, [1000]) ∧ (1000 : Int) ≠ 0 := by
  constructor
  · norm_num [countALLFrames, countDelays, frameDelay]
  · decide

/-- C3 amended: after frame counting succeeds with have_animation false,
frame_delays has exactly one entry; the entry is 0 whenever the file was
not marked as animation, but in the downgraded single-frame-animation
case it is that frame's computed delay, which may be nonzero. -/
theorem jxl_animation_downgrade_amended (env : CountEnv) (haveAnim : Bool)
    (tpsNum tpsDen : Nat) (frames : List FrameHeader) (r : Bool × List Int)
    (hr : countALLFrames env haveAnim tpsNum tpsDen frames = some r)
    (hfalse : r.1 = false) :
    r.2.length = 1 ∧ (haveAnim = false → r.2 = [0]) := by
  rcases countALLFrames_some_inv env haveAnim tpsNum tpsDen frames r hr with
    ⟨ha, hne, hr2⟩ | ⟨ha, hr2⟩
  · subst hr2
    constructor
    · by_cases hl : (countDelays tpsNum tpsDen frames).length = 1
      · simpa using hl
      · rw [show ((if (countDelays tpsNum tpsDen frames).length = 1 then false else true,
            countDelays tpsNum tpsDen frames) : Bool × List Int).1 =
            (if (countDelays tpsNum tpsDen frames).length = 1 then false else true) from rfl,
          if_neg hl] at hfalse
        exact Bool.noConfusion hfalse
    · intro h0
      rw [ha] at h0
      exact Bool.noConfusion h0
  · subst hr2
    exact ⟨rfl, fun _ => rfl⟩

/-- Witness for C3 amended: a static picture yields the single zero
delay. -/
theorem jxl_animation_downgrade_amended_witness :
    ((false, [0]) : Bool × List Int).2.length = 1 ∧
    ((false : Bool) = false → ((false, [0]) : Bool × List Int).2 = [0]) :=
  jxl_animation_downgrade_amended ⟨true, true, true, true, true⟩ false 10 1 []
    (false, [0]) rfl rfl

/-- C4 counterexample: a 262144 x 262144 image passes ensureDecoder's
dimension checks and reaches BasicInfoParsed although its pixel count
exceeds the 2^28 pixel cap.  The read path never checks
MAX_IMAGE_PIXELS, refuting the claim that such inputs fail. -/
theorem jxl_pixel_cap_not_checked_cex :
    ensureDecoder ⟨[1], true, true, 1, true, true, true, true, true, 262144, 262144⟩ =
      (true, ParseState.BasicInfoParsed) ∧
    MAX_IMAGE_PIXELS < 262144 * 262144 ∧
    262144 ≤ MAX_IMAGE_WIDTH ∧ 262144 ≤ MAX_IMAGE_HEIGHT := by
  refine ⟨by decide, by decide, by decide, by decide⟩

/-- C4 amended: a nonempty JXL input whose width or height exceeds the
feature-level cap makes ensureDecoder fail latching parse state Error,
and a handler in the Error state is refused by read before any decoding
(hence before any output-image allocation); the 2^28 pixel cap is
enforced only by the write pre-checks. -/
theorem jxl_dimension_check_amended (env : ParseEnv)
    (hne : env.rawData.isEmpty = false)
    (hdim : MAX_IMAGE_WIDTH < env.xsize ∨ MAX_IMAGE_HEIGHT < env.ysize) :
    ensureDecoder env = (false, ParseState.Error) ∧
    (∀ (Img : Type) (pipeline : Handler Img → Bool × Handler Img)
       (denv : DecodeEnv Img) (h : Handler Img), h.parseState = ParseState.Error →
         QJpegXLHandler.read pipeline denv h = (false, none, h)) ∧
    writePrecheck true 262144 262144 = false := by
  refine ⟨?_, ?_, by decide⟩
  · unfold ensureDecoder
    rw [if_neg (show ¬env.rawData.isEmpty = true by simp [hne])]
    by_cases c2 : env.signatureOk = false
    · rw [if_pos c2]
    rw [if_neg c2]
    by_cases c3 : env.createOk = false
    · rw [if_pos c3]
    rw [if_neg c3]
    by_cases c4 : 4 ≤ env.idealThreadCount ∧ env.setRunnerOk = false
    · rw [if_pos c4]
    rw [if_neg c4]
    by_cases c5 : env.setInputOk = false
    · rw [if_pos c5]
    rw [if_neg c5]
    by_cases c6 : env.subscribeOk = false
    · rw [if_pos c6]
    rw [if_neg c6]
    by_cases c7 : env.processOk = false
    · rw [if_pos c7]
    rw [if_neg c7]
    by_cases c8 : env.basicInfoOk = false
    · rw [if_pos c8]
    rw [if_neg c8]
    by_cases c9 : env.xsize = 0 ∨ env.ysize = 0
    · rw [if_pos c9]
    rw [if_neg c9]
    rw [if_pos hdim]
  · intro Img pipeline denv h hErr
    unfold QJpegXLHandler.read ensureALLCounted
    rw [if_pos hErr]

/-- Witness for C4 amended at width 262145. -/
theorem jxl_dimension_check_amended_witness :
    ensureDecoder ⟨[1], true, true, 8, true, true, true, true, true, 262145, 7⟩ =
      (false, ParseState.Error) :=
  (jxl_dimension_check_amended ⟨[1], true, true, 8, true, true, true, true, true, 262145, 7⟩
    (by decide) (Or.inl (by decide))).1

/-- Whenever the extractBox grow loop rejects, the box content the
library wanted to deliver exceeds 4194304 bytes: rejection happens only
at a need-more-output event with the buffer already beyond the limit,
and the buffer stays below the payload until complete. -/
theorem extractBoxLoop_none_big (p buf : Nat) (h : extractBoxLoop p buf = none) :
    4194304 < p := by
  revert h
  refine extractBoxLoop.induct p (fun b => extractBoxLoop p b = none → 4194304 < p)
    ?_ ?_ ?_ buf
  · intro x hx hbig hnone
    omega
  · intro x hx hbig ih hnone
    apply ih
    rw [extractBoxLoop, if_pos hx, if_neg hbig] at hnone
    exact hnone
  · intro x hx hnone
    rw [extractBoxLoop, if_neg hx] at hnone
    exact Option.noConfusion hnone

/-- C5 counterexample: a box whose raw size (5000000 bytes, within an
8 MiB container) already covers its 5000000-byte decompressed payload is
accepted, although the payload exceeds the 4 MiB cap: the cap is only
tested when the buffer must grow.  This refutes the claim that any box
whose decompressed payload exceeds 4 MiB is rejected. -/
theorem jxl_box_cap_cex :
    extractBox 8388608 5000000 5000000 = some 5000000 ∧ 4194304 < 5000000 := by
  constructor
  · unfold extractBox
    rw [if_neg (by norm_num), extractBoxLoop]
    norm_num
  · norm_num

/-- C5 amended: the extraction buffer starts at the raw box size and the
box is rejected when that size exceeds the container length; on
need-more-output the buffer grows by 16 KiB steps and the box is
rejected only when more output is needed while the buffer already
exceeds 4 MiB — so every rejected box (with admissible raw size) has a
decompressed payload above 4 MiB, while a payload no larger than the raw
box size is always accepted, even above 4 MiB. -/
theorem jxl_box_cap_amended (c r p : Nat) :
    (c < r → extractBox c r p = none) ∧
    (r ≤ c → extractBox c r p = none → 4194304 < p) ∧
    (r ≤ c → p ≤ r → extractBox c r p = some p) := by
  refine ⟨?_, ?_, ?_⟩
  · intro hcr
    unfold extractBox
    rw [if_pos hcr]
  · intro hrc hnone
    unfold extractBox at hnone
    rw [if_neg (by omega)] at hnone
    exact extractBoxLoop_none_big p r hnone
  · intro hrc hpr
    unfold extractBox
    rw [if_neg (by omega), extractBoxLoop, if_neg (by omega)]

/-- Witness for C5 amended: a 5-byte payload in a 10-byte box is
extracted whole. -/
theorem jxl_box_cap_amended_witness : extractBox 10 10 5 = some 5 :=
  (jxl_box_cap_amended 10 10 5).2.2 (by decide) (by decide)

/-- C1: whenever previous_index equals current_index at the time read is
called in a counted state (Success or Finished), read stores the cached
current_image into the out-image and advances the cursor via
jumpToNextImage; no decode happens — the result only depends on the
rewind outcome, never on the decode oracle, so a repeated read of the
same frame yields the same pixels. -/
theorem jxl_read_cached_frame {Img : Type} (pipeline : Handler Img → Bool × Handler Img)
    (env : DecodeEnv Img) (h : Handler Img)
    (hstate : h.parseState = ParseState.Success ∨ h.parseState = ParseState.Finished)
    (hcache : h.currentIndex = h.previousIndex) :
    QJpegXLHandler.read pipeline env h =
      ((jumpToNextImage pipeline env.rewindOk h).1, some h.currentImage,
       (jumpToNextImage pipeline env.rewindOk h).2) ∧
    ∀ env' : DecodeEnv Img, env'.rewindOk = env.rewindOk →
      QJpegXLHandler.read pipeline env' h = QJpegXLHandler.read pipeline env h := by
  have hs : h.parseState ≠ ParseState.Error := by
    rcases hstate with h1 | h1 <;> simp [h1]
  have hcount : ensureALLCounted pipeline h = (true, h) := by
    unfold ensureALLCounted
    rw [if_neg hs, if_pos hstate]
  constructor
  · unfold QJpegXLHandler.read
    rw [hcount]
    dsimp only
    rw [if_pos hcache]
  · intro env' he
    unfold QJpegXLHandler.read
    rw [hcount]
    dsimp only
    rw [if_pos hcache, he, if_pos hcache]

/-- Witness for C1: a counted static handler with cached frame 42. -/
theorem jxl_read_cached_frame_witness :
    QJpegXLHandler.read (fun h => (true, h)) (⟨some 7, true⟩ : DecodeEnv Nat)
        ⟨ParseState.Success, 0, 0, [0], 42, 0⟩ =
      ((jumpToNextImage (fun h => (true, h)) true
          (⟨ParseState.Success, 0, 0, [0], 42, 0⟩ : Handler Nat)).1,
       some 42,
       (jumpToNextImage (fun h => (true, h)) true
          (⟨ParseState.Success, 0, 0, [0], 42, 0⟩ : Handler Nat)).2) :=
  (jxl_read_cached_frame (fun h => (true, h)) (⟨some 7, true⟩ : DecodeEnv Nat)
    ⟨ParseState.Success, 0, 0, [0], 42, 0⟩ (Or.inl rfl) rfl).1

/-- C10: once the parse state is Finished, canRead returns false whatever
the device probe would say, yet jumpToNextImage (with a succeeding
library rewind) still succeeds and resets the state to Success. -/
theorem jxl_canread_finished {Img : Type} (pipeline : Handler Img → Bool × Handler Img)
    (h : Handler Img) (hst : h.parseState = ParseState.Finished) :
    (∀ probeOk : Bool, handlerCanRead probeOk h.parseState = false) ∧
    (jumpToNextImage pipeline true h).1 = true ∧
    (jumpToNextImage pipeline true h).2.parseState = ParseState.Success := by
  have hcount : ensureALLCounted pipeline h = (true, h) := by
    unfold ensureALLCounted
    rw [if_neg (by simp [hst]), if_pos (Or.inr hst)]
  refine ⟨?_, ?_, ?_⟩
  · intro probeOk
    rw [hst]
    cases probeOk <;> rfl
  · unfold jumpToNextImage
    rw [hcount]
    dsimp only
    by_cases hlen : 1 < h.frameDelays.length
    · rw [if_pos hlen]
      by_cases hwrap : (h.frameDelays.length : Int) ≤ h.currentIndex + 1
      · rw [if_pos hwrap]
        rfl
      · rw [if_neg hwrap]
    · rw [if_neg hlen]
  · unfold jumpToNextImage
    rw [hcount]
    dsimp only
    by_cases hlen : 1 < h.frameDelays.length
    · rw [if_pos hlen]
      by_cases hwrap : (h.frameDelays.length : Int) ≤ h.currentIndex + 1
      · rw [if_pos hwrap]
        rfl
      · rw [if_neg hwrap]
    · rw [if_neg hlen]

/-- Witness for C10: a Finished 3-frame handler declines canRead but
jumps to the next image successfully. -/
theorem jxl_canread_finished_witness :
    handlerCanRead true ParseState.Finished = false ∧
    (jumpToNextImage (fun h => (true, h)) true
      (⟨ParseState.Finished, 0, 0, [10, 20, 30], (5 : Nat), 0⟩ : Handler Nat)).1 = true ∧
    (jumpToNextImage (fun h => (true, h)) true
      (⟨ParseState.Finished, 0, 0, [10, 20, 30], (5 : Nat), 0⟩ : Handler Nat)).2.parseState =
      ParseState.Success :=
  ⟨(jxl_canread_finished (fun h => (true, h))
      (⟨ParseState.Finished, 0, 0, [10, 20, 30], (5 : Nat), 0⟩ : Handler Nat) rfl).1 true,
   (jxl_canread_finished (fun h => (true, h))
      (⟨ParseState.Finished, 0, 0, [10, 20, 30], (5 : Nat), 0⟩ : Handler Nat) rfl).2.1,
   (jxl_canread_finished (fun h => (true, h))
      (⟨ParseState.Finished, 0, 0, [10, 20, 30], (5 : Nat), 0⟩ : Handler Nat) rfl).2.2⟩

/-- Scanlines not targeted by any remaining iteration of the PFM loop
keep their previous content. -/
theorem pfmReadLoop_untouched (ps bw : Bool) (w h : Nat) :
    ∀ (k y : Nat) (img : List (List PFMPixel)) (s : List ℚ) (out : List (List PFMPixel)),
      pfmReadLoop ps bw w h k y img s = some out →
      ∀ i : Nat, (∀ j : Nat, y ≤ j → j < y + k → (if ps then j else h - 1 - j) ≠ i) →
        out[i]? = img[i]? := by
  intro k
  induction k with
  | zero =>
    intro y img s out hloop i hi
    unfold pfmReadLoop at hloop
    injection hloop with hloop
    rw [hloop]
  | succ k ih =>
    intro y img s out hloop i hi
    unfold pfmReadLoop at hloop
    split at hloop
    · exact Option.noConfusion hloop
    · rename_i row s1 heq
      have hout := ih (y + 1) (img.set (if ps then y else h - 1 - y) row) s1 out hloop i
        (fun j hj1 hj2 => hi j (by omega) (by omega))
      rw [hout]
      exact List.getElem?_set_ne (hi y (le_refl y) (by omega))

/-- Each iteration y of the PFM loop writes the y-th stream row into
scanline y (Photoshop) or h-1-y (GIMP), and later iterations leave that
scanline alone. -/
theorem pfmReadLoop_spec (ps bw : Bool) (w h : Nat) :
    ∀ (k y : Nat) (img : List (List PFMPixel)) (s : List ℚ) (out : List (List PFMPixel)),
      pfmReadLoop ps bw w h k y img s = some out →
      img.length = h → y + k = h →
      ∀ j : Nat, y ≤ j → j < h →
        ∃ row s1, streamRowsFrom bw w (j - y) s = some (row, s1) ∧
          out[(if ps then j else h - 1 - j)]? = some row := by
  intro k
  induction k with
  | zero =>
    intro y img s out hloop hlen hyk j hj1 hj2
    omega
  | succ k ih =>
    intro y img s out hloop hlen hyk j hj1 hj2
    unfold pfmReadLoop at hloop
    split at hloop
    · exact Option.noConfusion hloop
    · rename_i row s1 heq
      rcases Nat.eq_or_lt_of_le hj1 with hjy | hjy
      · subst hjy
        refine ⟨row, s1, ?_, ?_⟩
        · simpa [streamRowsFrom, Nat.sub_self] using heq
        · have huntouched := pfmReadLoop_untouched ps bw w h k (y + 1)
            (img.set (if ps then y else h - 1 - y) row) s1 out hloop
            (if ps then y else h - 1 - y)
            (fun j2 hj21 hj22 => by
              cases hps : ps with
              | true => simp [hps]; omega
              | false => simp [hps]; omega)
          rw [huntouched]
          apply List.getElem?_set_eq_of_lt
          rw [hlen]
          cases hps : ps with
          | true => simp [hps]; omega
          | false => simp [hps]; omega
      · have hrest := ih (y + 1) (img.set (if ps then y else h - 1 - y) row) s1 out hloop
          (by rw [List.length_set]; exact hlen) (by omega) j (by omega) hj2
        obtain ⟨row2, s2, hstream, hout⟩ := hrest
        refine ⟨row2, s2, ?_, hout⟩
        have hjy2 : j - y = (j - (y + 1)) + 1 := by omega
        rw [hjy2, streamRowsFrom, heq]
        exact hstream

/-- C9: for every valid PFM input, the reader writes pixel rows bottom-up
for the GIMP header variant (scanline h-1-y receives the y-th row of the
data stream) and top-down for the Photoshop variant (scanline y receives
the y-th row). -/
theorem pfm_row_order (ps bw : Bool) (w h : Nat) (s : List ℚ)
    (img : List (List PFMPixel)) (hread : pfmRead ps bw w h s = some img)
    (y : Nat) (hy : y < h) :
    ∃ row s1, streamRowsFrom bw w y s = some (row, s1) ∧
      img[(if ps then y else h - 1 - y)]? = some row := by
  have hmain := pfmReadLoop_spec ps bw w h h 0
    (List.replicate h (List.replicate w (0, 0, 0, 0))) s img hread
    (List.length_replicate h _) (by omega) y (Nat.zero_le y) hy
  simpa using hmain

/-- Witness for C9: a 1x2 grayscale GIMP-variant stream [1, 2] ends with
stream row 0 in the bottom scanline. -/
theorem pfm_row_order_witness :
    ∃ row s1, streamRowsFrom true 1 0 [(1 : ℚ), 2] = some (row, s1) ∧
      ([[((2 : ℚ), 2, 2, 1)], [((1 : ℚ), 1, 1, 1)]] : List (List PFMPixel))[1]? =
        some row := by
  have hr : pfmRead false true 1 2 [(1 : ℚ), 2] =
      some [[((2 : ℚ), 2, 2, 1)], [((1 : ℚ), 1, 1, 1)]] := by rfl
  have hmain := pfm_row_order false true 1 2 [(1 : ℚ), 2]
    [[((2 : ℚ), 2, 2, 1)], [((1 : ℚ), 1, 1, 1)]] hr 0 (by omega)
  simpa using hmain
